import Mathlib

/-!
Shallow embedding of the ascii-fluid renderer (src/main.c) and proofs about it.

Conventions of the embedding:
* C `float` quantities (rect coordinates, texture dimensions, colors, matrix
  entries) are modelled as exact rationals `ℚ`; the claims under study are
  about which arithmetic expressions the code computes, not about IEEE-754
  rounding.
* C `uint32_t` arithmetic is modelled on `ℕ` with an explicit `% 2 ^ 32`
  wherever the 32-bit wraparound can matter (unsigned conversion of a glyph
  code, unsigned multiplication in the tile math).
* GPU calls are modelled by the data the code hands to them: a `draw_texture`
  call is represented by the vertex/index payload it uploads plus the texture
  it binds; the window/GL callback state is an explicit record that the
  callbacks transform.
-/

universe u

/-- 32-bit modulus used by all `uint32_t` arithmetic in the embedding. -/
def u32_size : ℕ := 2 ^ 32

/-- Conversion of a C integer value to `uint32_t` (wraps modulo `2^32`);
models the cast `(unsigned)glyph` in `draw_ascii_tile`. -/
def toU32 (g : ℤ) : ℕ := (g % (u32_size : ℤ)).toNat

/-- Truncating conversion of a nonnegative float value to `uint32_t`;
models casts such as `curses_atlas.h_count = curses_atlas.tex.w / curses_atlas.tile_dim`. -/
def f32_to_u32 (q : ℚ) : ℕ := (q.num / (q.den : ℤ)).toNat

/-- `Texture` from main.c: a GPU texture with float pixel dimensions
(the opaque GL id is irrelevant to the verified claims and omitted). -/
structure Texture where
  w : ℚ
  h : ℚ
  deriving DecidableEq, Repr

/-- `Rect` from main.c. -/
structure Rect where
  x : ℚ
  y : ℚ
  w : ℚ
  h : ℚ
  deriving DecidableEq, Repr

/-- A 4-component float color (`vec4` in main.c). -/
structure Vec4 where
  r : ℚ
  g : ℚ
  b : ℚ
  a : ℚ
  deriving DecidableEq, Repr

/-- `Ascii_Atlas` from main.c. -/
structure Ascii_Atlas where
  tex : Texture
  tile_dim : ℕ
  h_count : ℕ
  v_count : ℕ
  deriving DecidableEq, Repr

/-- The payload one `draw_texture` call uploads to the GPU: the four vertex
positions, four texture coordinates, four vertex colors, the six indices,
and the texture it binds for the indexed draw. -/
structure DrawCall where
  positions : List (ℚ × ℚ)
  texcoords : List (ℚ × ℚ)
  colors : List Vec4
  indices : List ℕ
  texture : Texture
  deriving DecidableEq, Repr

/-- The normalization `src_norm` computed inside `draw_texture` (main.c:416). -/
def src_normalized (src : Rect) (texture : Texture) : Rect :=
  { x := src.x / texture.w
    y := src.y / texture.h
    w := src.w / texture.w
    h := src.h / texture.h }

/-- `draw_texture` (main.c:391-459): builds the positions (main.c:404-409),
texcoords from the normalized source rect (main.c:416-422), four copies of
the color (main.c:429-430) and the fixed index pattern (main.c:441-444). -/
def draw_texture (dest : Rect) (texture : Texture) (src : Rect) (color : Vec4) : DrawCall :=
  let n := src_normalized src texture
  { positions :=
      [ (dest.x, dest.y)
      , (dest.x + dest.w, dest.y)
      , (dest.x, dest.y + dest.h)
      , (dest.x + dest.w, dest.y + dest.h) ]
    texcoords :=
      [ (n.x, n.y)
      , (n.x + n.w, n.y)
      , (n.x, n.y + n.h)
      , (n.x + n.w, n.y + n.h) ]
    colors := [color, color, color, color]
    indices := [2, 1, 0, 2, 3, 1]
    texture := texture }

/-- `load_empty_texture` (main.c:371-389): the 1x1 fallback texture. -/
def empty_texture : Texture := { w := 1, h := 1 }

/-- The pixel value `uint32_t white = -1` uploaded for the fallback texture
(main.c:383): the C conversion of `-1` to `uint32_t`. -/
def white_u32 : ℕ := toU32 (-1)

/-- The RGBA bytes of the fallback texture pixel, as GL_RGBA/GL_UNSIGNED_BYTE
reads them from the bytes of `white_u32`. -/
def empty_texture_rgba : ℕ × ℕ × ℕ × ℕ :=
  ( white_u32 % 256
  , white_u32 / 256 % 256
  , white_u32 / 256 ^ 2 % 256
  , white_u32 / 256 ^ 3 % 256 )

/-- `draw_texture_scaled` (main.c:461-468). -/
def draw_texture_scaled (pos : ℚ × ℚ) (texture : Texture) (scale : ℚ) : DrawCall :=
  draw_texture
    { x := pos.1, y := pos.2, w := texture.w * scale, h := texture.h * scale }
    texture
    { x := 0, y := 0, w := texture.w, h := texture.h }
    { r := 1, g := 1, b := 1, a := 1 }

/-- `draw_texture_scaled_tinted` (main.c:470-477). -/
def draw_texture_scaled_tinted (pos : ℚ × ℚ) (texture : Texture) (scale : ℚ)
    (color : Vec4) : DrawCall :=
  draw_texture
    { x := pos.1, y := pos.2, w := texture.w * scale, h := texture.h * scale }
    texture
    { x := 0, y := 0, w := texture.w, h := texture.h }
    color

/-- `draw_quad` (main.c:479-481): a flat-color quad through the fallback texture. -/
def draw_quad (quad : Rect) (color : Vec4) : DrawCall :=
  draw_texture quad empty_texture { x := 0, y := 0, w := 0, h := 0 } color

/-- The source-rect computation of `draw_ascii_tile` (main.c:486-491):
`x = (unsigned)glyph % atlas.h_count`, `y = (unsigned)glyph / atlas.h_count`,
rect `{x * tile_dim, y * tile_dim, tile_dim, tile_dim}` with all arithmetic
in `uint32_t` (hence the `% 2^32` on the products). -/
def tile_source_rect (glyph : ℤ) (atlas : Ascii_Atlas) : Rect :=
  let u := toU32 glyph
  let x := u % atlas.h_count
  let y := u / atlas.h_count
  { x := ((x * atlas.tile_dim) % u32_size : ℕ)
    y := ((y * atlas.tile_dim) % u32_size : ℕ)
    w := (atlas.tile_dim : ℚ)
    h := (atlas.tile_dim : ℚ) }

/-- `draw_ascii_tile` (main.c:483-497). -/
def draw_ascii_tile (pos : ℚ × ℚ) (glyph : ℤ) (col : Vec4) (atlas : Ascii_Atlas) : DrawCall :=
  draw_texture
    { x := pos.1, y := pos.2, w := (atlas.tile_dim : ℚ), h := (atlas.tile_dim : ℚ) }
    atlas.tex
    (tile_source_rect glyph atlas)
    col

/-- Atlas construction as in `main` (main.c:121-125): grid counts are the
texture dimensions divided by `tile_dim` (float division truncated by the
assignment to the `uint32_t` fields). -/
def atlas_from (tex : Texture) (tile_dim : ℕ) : Ascii_Atlas :=
  { tex := tex
    tile_dim := tile_dim
    h_count := f32_to_u32 (tex.w / (tile_dim : ℚ))
    v_count := f32_to_u32 (tex.h / (tile_dim : ℚ)) }

/-- The atlas `main` builds for a 240x240 `res/curses.png` with tile_dim 24. -/
def atlas240 : Ascii_Atlas := atlas_from { w := 240, h := 240 } 24

/-- Evaluated form of `atlas240` (the rational division `240 / 24` does not
reduce definitionally, so concrete computations go through this lemma). -/
lemma atlas240_eval :
    atlas240 = { tex := { w := 240, h := 240 }, tile_dim := 24, h_count := 10, v_count := 10 } := by
  have h : (240 : ℚ) / (24 : ℚ) = 10 := by norm_num
  simp only [atlas240, atlas_from, Nat.cast_ofNat, h]
  decide

/-- glyph code of grid cell `(x, y)` in the hardcoded scene (main.c:143):
`(x + y * curses_atlas.h_count) % 128`. -/
def cell_glyph (atlas : Ascii_Atlas) (x y : ℕ) : ℕ :=
  (x + y * atlas.h_count) % 128

/-- The magenta tint of the glyph grid (main.c:144). -/
def magenta : Vec4 := { r := 1, g := 0, b := 1, a := 1 }

/-- The background tint (main.c:136). -/
def bg_tint : Vec4 := { r := 22 / 100, g := 2 / 10, b := 2 / 10, a := 5 / 10 }

/-- The background scale `0.7f` (main.c:131). -/
def bg_scale : ℚ := 7 / 10

/-- `Window_State` from main.c (the GLFW window pointer is omitted). -/
structure Window_State where
  w : ℤ
  h : ℤ
  deriving DecidableEq, Repr

/-- Background position computed each frame (main.c:132-135). -/
def bg_pos (ws : Window_State) (claesz : Texture) : ℚ × ℚ :=
  ( (ws.w : ℚ) * (1 / 2) - claesz.w * bg_scale * (1 / 2)
  , (ws.h : ℚ) * (1 / 2) - claesz.h * bg_scale * (1 / 2) )

/-- The 50x50 glyph-tile loop of the frame (main.c:140-145): `y` is the outer
loop, `x` the inner one. -/
def grid_calls (atlas : Ascii_Atlas) : List DrawCall :=
  (List.range 50).flatMap fun (y : ℕ) =>
    (List.range 50).map fun (x : ℕ) =>
      draw_ascii_tile ((x : ℚ) * (atlas.tile_dim : ℚ), (y : ℚ) * (atlas.tile_dim : ℚ))
        ((cell_glyph atlas x y : ℕ) : ℤ) magenta atlas

/-- The draw calls issued by one iteration of the main loop (main.c:131-145):
tinted scaled background, scaled atlas preview, then the 50x50 glyph grid. -/
def frame_scene (ws : Window_State) (claesz : Texture) (atlas : Ascii_Atlas) : List DrawCall :=
  draw_texture_scaled_tinted (bg_pos ws claesz) claesz bg_scale bg_tint ::
  draw_texture_scaled (100, 100) atlas.tex 1 ::
  grid_calls atlas

/-- The program state touched by the GLFW callbacks: stored window size,
GPU viewport, projection uniform (a 4x4 column-major matrix), and the
window should-close flag. -/
structure ProgramState where
  win_w : ℤ
  win_h : ℤ
  viewport : ℤ × ℤ × ℤ × ℤ
  projection : List (List ℚ)
  should_close : Bool
  deriving DecidableEq, Repr

/-- `glm_ortho` from cglm (RH_NO variant), as called by
`set_ortho_projection` (main.c:334): the column-major orthographic matrix. -/
def glm_ortho (left right bottom top nearZ farZ : ℚ) : List (List ℚ) :=
  let rl := 1 / (right - left)
  let tb := 1 / (top - bottom)
  let fn := -1 / (farZ - nearZ)
  [ [2 * rl, 0, 0, 0]
  , [0, 2 * tb, 0, 0]
  , [0, 0, 2 * fn, 0]
  , [-(right + left) * rl, -(top + bottom) * tb, (farZ + nearZ) * fn, 1] ]

/-- `set_ortho_projection` (main.c:332-339): recomputes the projection
uniform for the current shader from the window size. -/
def set_ortho_projection (width height : ℤ) (s : ProgramState) : ProgramState :=
  { s with projection := glm_ortho 0 (width : ℚ) (height : ℚ) 0 (-1) 1 }

/-- `window_size_callback` (main.c:198-205): stores the new size, updates the
GPU viewport, and recomputes the orthographic projection. -/
def window_size_callback (width height : ℤ) (s : ProgramState) : ProgramState :=
  set_ortho_projection width height
    { s with win_w := width, win_h := height, viewport := (0, 0, width, height) }

/-- GLFW constants used by `keyboard_callback`. -/
def GLFW_KEY_ESCAPE : ℤ := 256

/-- GLFW action constant for a key press. -/
def GLFW_PRESS : ℤ := 1

/-- `keyboard_callback` (main.c:189-196): only Escape + press sets the
window should-close flag; every other event leaves the state alone. -/
def keyboard_callback (key action : ℤ) (s : ProgramState) : ProgramState :=
  if key = GLFW_KEY_ESCAPE ∧ action = GLFW_PRESS then { s with should_close := true } else s

/-- Outcomes of the external collaborators `main` checks: GLFW init, window
creation, GL loader, the two shader compiles, the program link, and the two
image loads (in the order main.c performs them). -/
structure Env where
  glfw_init_ok : Bool
  window_ok : Bool
  glad_ok : Bool
  vert_ok : Bool
  frag_ok : Bool
  link_ok : Bool
  claesz_ok : Bool
  curses_ok : Bool
  deriving DecidableEq, Repr

/-- Whether every fallible startup step succeeds. -/
def env_all_ok (e : Env) : Bool :=
  e.glfw_init_ok && e.window_ok && e.glad_ok && e.vert_ok && e.frag_ok &&
    e.link_ok && e.claesz_ok && e.curses_ok

/-- Observable outcome of the process: its exit status, whether
`glfwTerminate` ran, and the fatal diagnostic printed to stderr (if any). -/
structure ProcessResult where
  status : ℕ
  glfw_terminated : Bool
  diagnostic : Option String
  deriving DecidableEq, Repr

/-- `exit_with_error` (main.c:157-167): prints the diagnostic to stderr,
terminates GLFW, and exits the process with status 1. -/
def exit_with_error (msg : String) : ProcessResult :=
  { status := 1, glfw_terminated := true, diagnostic := some msg }

/-- Control flow of `main` (main.c:79-155): each fallible startup step, in
source order, routes to `exit_with_error` on failure; otherwise the loop
runs until the should-close flag is set, then GLFW terminates and the
process returns 0. -/
def main_model (e : Env) : ProcessResult :=
  if !e.glfw_init_ok then exit_with_error "Failed to initialize GLFW"
  else if !e.window_ok then exit_with_error "Failed to create GLFW window"
  else if !e.glad_ok then exit_with_error "Failed to load GL function pointers"
  else if !e.vert_ok then exit_with_error "Failed to compile shader"
  else if !e.frag_ok then exit_with_error "Failed to compile shader"
  else if !e.link_ok then exit_with_error "Failed to compile program"
  else if !e.claesz_ok then exit_with_error "Failed to load image at res/claesz.png"
  else if !e.curses_ok then exit_with_error "Failed to load image at res/curses.png"
  else { status := 0, glfw_terminated := true, diagnostic := none }

/-! ## Helper lemmas -/

/-- A nonnegative integer below `2^32` is unchanged by the `uint32_t` conversion. -/
lemma toU32_eq_toNat (g : ℤ) (hg : 0 ≤ g) (hlt : g < (u32_size : ℤ)) :
    toU32 g = g.toNat := by
  unfold toU32
  rw [Int.emod_eq_of_lt hg hlt]

/-- Successor under a Nat modulus that does not wrap the residue. -/
lemma succ_mod_of_lt (a h : ℕ) (h1 : a % h + 1 < h) : (a + 1) % h = a % h + 1 := by
  conv_lhs => rw [← Nat.div_add_mod a h]
  rw [Nat.add_assoc, Nat.mul_add_mod]
  exact Nat.mod_eq_of_lt h1

/-- Indexing into a flatMap whose pieces all have the same length. -/
lemma flatMap_fixed_length_getElem {β : Type u} (l : List ℕ) (f : ℕ → List β) (m : ℕ)
    (hf : ∀ a, (f a).length = m) :
    ∀ (i j : ℕ), j < m → ∀ (hi : i < l.length), (l.flatMap f)[i * m + j]? = (f l[i])[j]? := by
  induction l with
  | nil =>
    intro i j hj hi
    simp at hi
  | cons a l ih =>
    intro i j hj hi
    cases i with
    | zero =>
      have hidx : 0 * m + j = j := by ring
      rw [hidx, List.flatMap_cons, List.getElem?_append_left (by rw [hf a]; exact hj)]
      simp
    | succ i =>
      have hle : (f a).length ≤ (i + 1) * m + j := by
        rw [hf a]
        calc m ≤ (i + 1) * m := Nat.le_mul_of_pos_left m (Nat.succ_pos i)
        _ ≤ (i + 1) * m + j := Nat.le_add_right _ _
      rw [List.flatMap_cons, List.getElem?_append_right hle]
      have harith : (i + 1) * m + j - (f a).length = i * m + j := by
        rw [hf a]
        have h1 : (i + 1) * m + j = m + (i * m + j) := by ring
        rw [h1, Nat.add_sub_cancel_left]
      rw [harith]
      have hi2 : i < l.length := by simpa using hi
      rw [ih i j hj hi2]
      simp

/-- The tile call the scene makes for grid cell `(x, y)`. -/
def grid_cell_call (atlas : Ascii_Atlas) (x y : ℕ) : DrawCall :=
  draw_ascii_tile ((x : ℚ) * (atlas.tile_dim : ℚ), (y : ℚ) * (atlas.tile_dim : ℚ))
    ((cell_glyph atlas x y : ℕ) : ℤ) magenta atlas

/-- `grid_calls` in terms of `grid_cell_call`. -/
lemma grid_calls_def (atlas : Ascii_Atlas) :
    grid_calls atlas =
      (List.range 50).flatMap fun (y : ℕ) => (List.range 50).map fun (x : ℕ) =>
        grid_cell_call atlas x y := rfl

/-- Random access into the 50x50 glyph grid of the scene. -/
lemma grid_calls_getElem (atlas : Ascii_Atlas) (x y : ℕ) (hx : x < 50) (hy : y < 50) :
    (grid_calls atlas)[y * 50 + x]? = some (grid_cell_call atlas x y) := by
  rw [grid_calls_def]
  have hy2 : y < (List.range 50).length := by simpa using hy
  rw [flatMap_fixed_length_getElem (List.range 50)
    (fun (y : ℕ) => (List.range 50).map fun (x : ℕ) => grid_cell_call atlas x y)
    50 (fun a => by simp) y x hx hy2]
  simp [List.getElem_range, List.getElem?_map, List.getElem?_range hx]

/-! ## Claims -/

/-- C1: for every destination rect, `draw_texture` writes exactly 4 vertices
whose positions, in order, are (x,y), (x+w,y), (x,y+h), (x+w,y+h), and
exactly 6 indices equal to {2,1,0, 2,3,1}. -/
theorem C1_quad_vertices_and_indices (dest : Rect) (texture : Texture) (src : Rect) (color : Vec4) :
    (draw_texture dest texture src color).positions =
      [ (dest.x, dest.y)
      , (dest.x + dest.w, dest.y)
      , (dest.x, dest.y + dest.h)
      , (dest.x + dest.w, dest.y + dest.h) ]
    ∧ (draw_texture dest texture src color).positions.length = 4
    ∧ (draw_texture dest texture src color).indices = [2, 1, 0, 2, 3, 1]
    ∧ (draw_texture dest texture src color).indices.length = 6 :=
  ⟨rfl, rfl, rfl, rfl⟩

/-- C3: `draw_quad` produces one quad whose corners are the rect's corners in
order top-left, top-right, bottom-left, bottom-right, whose four vertex
colors all equal the tint, through the 1x1 opaque-white fallback texture
with a zero source rect (hence degenerate all-zero texcoords). -/
theorem C3_draw_quad_solid (quad : Rect) (color : Vec4) :
    (draw_quad quad color).positions =
      [ (quad.x, quad.y)
      , (quad.x + quad.w, quad.y)
      , (quad.x, quad.y + quad.h)
      , (quad.x + quad.w, quad.y + quad.h) ]
    ∧ (draw_quad quad color).colors = [color, color, color, color]
    ∧ (draw_quad quad color).texture = empty_texture
    ∧ empty_texture.w = 1 ∧ empty_texture.h = 1
    ∧ empty_texture_rgba = (255, 255, 255, 255)
    ∧ (draw_quad quad color).texcoords = [(0, 0), (0, 0), (0, 0), (0, 0)] := by
  refine ⟨rfl, rfl, rfl, rfl, rfl, by decide, ?_⟩
  simp [draw_quad, draw_texture, src_normalized, empty_texture]

/-- C6: `draw_texture` normalizes the source rect componentwise by the
texture dimensions, and a zero source rect normalizes to the degenerate
(0,0,0,0). -/
theorem C6_src_normalization (dest src : Rect) (texture : Texture) (color : Vec4)
    (hw : 0 < texture.w) (hh : 0 < texture.h) :
    (draw_texture dest texture src color).texcoords =
      [ (src.x / texture.w, src.y / texture.h)
      , (src.x / texture.w + src.w / texture.w, src.y / texture.h)
      , (src.x / texture.w, src.y / texture.h + src.h / texture.h)
      , (src.x / texture.w + src.w / texture.w, src.y / texture.h + src.h / texture.h) ]
    ∧ (src = { x := 0, y := 0, w := 0, h := 0 } →
        src_normalized src texture = { x := 0, y := 0, w := 0, h := 0 }) := by
  constructor
  · simp [draw_texture, src_normalized]
  · intro h
    subst h
    simp [src_normalized]

/-- Witness for C6 at a concrete texture and the zero source rect. -/
theorem C6_src_normalization_witness :
    (draw_texture { x := 1, y := 2, w := 3, h := 4 } { w := 240, h := 240 }
        { x := 0, y := 0, w := 0, h := 0 } magenta).texcoords =
      [(0, 0), (0, 0), (0, 0), (0, 0)] := by
  have h := C6_src_normalization { x := 1, y := 2, w := 3, h := 4 }
    { x := 0, y := 0, w := 0, h := 0 } { w := 240, h := 240 } magenta
    (by norm_num) (by norm_num)
  rw [h.1]
  norm_num

/-- C7: a 240x240 atlas texture with tile_dim 24 yields a 10x10 grid, and
`tile_source_rect 23` is the rect {72, 48, 24, 24}. -/
theorem C7_atlas240_tile23 :
    atlas240.h_count = 10 ∧ atlas240.v_count = 10 ∧
      tile_source_rect 23 atlas240 = { x := 72, y := 48, w := 24, h := 24 } := by
  rw [atlas240_eval]
  decide

/-- C8: the resize handler is idempotent: running it twice with the same
size yields the same stored size, viewport, and projection as running it
once. -/
theorem C8_resize_idempotent (width height : ℤ) (s : ProgramState) :
    window_size_callback width height (window_size_callback width height s) =
      window_size_callback width height s := rfl

/-- C9: the process exits with status 0 exactly on a fully successful
startup (the loop then ends normally), and with status 1 on any fatal
initialization, shader-compile, shader-link, or asset-load failure, in
which case a diagnostic is emitted; GLFW is terminated in every path. -/
theorem C9_exit_codes (e : Env) :
    (main_model e).glfw_terminated = true
    ∧ (main_model e).status = (if env_all_ok e then 0 else 1)
    ∧ ((main_model e).diagnostic = none ↔ env_all_ok e = true) := by
  obtain ⟨a, b, c, d, f, g, h, i⟩ := e
  cases a <;> cases b <;> cases c <;> cases d <;> cases f <;> cases g <;> cases h <;> cases i <;>
    decide

/-- C10: a keyboard event whose key is not Escape or whose action is not a
press leaves the program state unchanged. -/
theorem C10_keyboard_ignores_others (key action : ℤ) (s : ProgramState)
    (h : key ≠ GLFW_KEY_ESCAPE ∨ action ≠ GLFW_PRESS) :
    keyboard_callback key action s = s := by
  have hn : ¬(key = GLFW_KEY_ESCAPE ∧ action = GLFW_PRESS) := by tauto
  simp [keyboard_callback, hn]

/-- A concrete program state used to witness the callback claims. -/
def init_state : ProgramState :=
  { win_w := 800, win_h := 600, viewport := (0, 0, 800, 600)
  , projection := glm_ortho 0 800 600 0 (-1) 1, should_close := false }

/-- Witness for C10: a press of key 65 (A) leaves the state unchanged. -/
theorem C10_keyboard_ignores_others_witness :
    keyboard_callback 65 1 init_state = init_state :=
  C10_keyboard_ignores_others 65 1 init_state (Or.inl (by decide))

/-- C2 counterexample: for glyph code -1 on the 10x10/24px atlas, the code's
source rect differs from {column*tile_dim, row*tile_dim, ...} computed with
mathematical (non-wrapping) products: the row product overflows 32 bits. -/
theorem C2_counterexample :
    tile_source_rect (-1) atlas240 ≠
      { x := ((toU32 (-1) % atlas240.h_count * atlas240.tile_dim : ℕ) : ℚ)
      , y := ((toU32 (-1) / atlas240.h_count * atlas240.tile_dim : ℕ) : ℚ)
      , w := (atlas240.tile_dim : ℚ), h := (atlas240.tile_dim : ℚ) } := by
  rw [atlas240_eval]
  decide

/-- C2 (amended): tile column and row come from the unsigned conversion of
the glyph code (so a negative code wraps rather than erroring), and whenever
the two products fit in 32 bits the source rect is exactly
{column*tile_dim, row*tile_dim, tile_dim, tile_dim}. -/
theorem C2_tile_rect_unsigned (g : ℤ) (atlas : Ascii_Atlas)
    (hx : toU32 g % atlas.h_count * atlas.tile_dim < u32_size)
    (hy : toU32 g / atlas.h_count * atlas.tile_dim < u32_size) :
    tile_source_rect g atlas =
      { x := ((toU32 g % atlas.h_count * atlas.tile_dim : ℕ) : ℚ)
      , y := ((toU32 g / atlas.h_count * atlas.tile_dim : ℕ) : ℚ)
      , w := (atlas.tile_dim : ℚ), h := (atlas.tile_dim : ℚ) } := by
  simp only [tile_source_rect]
  rw [Nat.mod_eq_of_lt hx, Nat.mod_eq_of_lt hy]

/-- Witness for C2 at glyph 5 on the 10x10/24px atlas. -/
theorem C2_tile_rect_unsigned_witness :
    tile_source_rect 5 atlas240 = { x := 120, y := 0, w := 24, h := 24 } := by
  have h := C2_tile_rect_unsigned 5 atlas240
    (by rw [atlas240_eval]; decide) (by rw [atlas240_eval]; decide)
  rw [h, atlas240_eval]
  decide

/-- C5 counterexample: `tile_source_rect(g).x` is not periodic with period
tiles_per_row over all integer glyph codes: at g = -5 on the 10x10/24px
atlas, g and g + 10 land in different columns because the unsigned
conversion wraps negative codes to near 2^32. -/
theorem C5_counterexample :
    (tile_source_rect (-5 + (atlas240.h_count : ℤ)) atlas240).x ≠
      (tile_source_rect (-5) atlas240).x := by
  rw [atlas240_eval]
  decide

/-- C5 (amended): for every nonnegative glyph code g with
g + tiles_per_row < 2^32, `tile_source_rect(g).x` is periodic with period
tiles_per_row; when additionally one more unit of `g mod tiles_per_row`
stays within the row and the products fit in 32 bits, x increases by
tile_dim; and full-grid wraparound
`tile_source_rect(g) = tile_source_rect(g + tiles_per_row*tiles_per_column)`
does fail for some g (here g = 0 on the 10x10/24px atlas). -/
theorem C5_x_periodicity (atlas : Ascii_Atlas) (g : ℤ) (hg : 0 ≤ g)
    (hper : g + (atlas.h_count : ℤ) < (u32_size : ℤ)) :
    ((tile_source_rect (g + (atlas.h_count : ℤ)) atlas).x = (tile_source_rect g atlas).x)
    ∧ (toU32 g % atlas.h_count + 1 < atlas.h_count →
        (toU32 g % atlas.h_count + 1) * atlas.tile_dim < u32_size →
        (tile_source_rect (g + 1) atlas).x =
          (tile_source_rect g atlas).x + (atlas.tile_dim : ℚ))
    ∧ (tile_source_rect 0 atlas240 ≠
        tile_source_rect (0 + ((atlas240.h_count * atlas240.v_count : ℕ) : ℤ)) atlas240) := by
  have hcnt : (0 : ℤ) ≤ (atlas.h_count : ℤ) := Int.natCast_nonneg _
  have hlt : g < (u32_size : ℤ) := by omega
  have hg32 : toU32 g = g.toNat := toU32_eq_toNat g hg hlt
  have hgh : toU32 (g + (atlas.h_count : ℤ)) = g.toNat + atlas.h_count := by
    rw [toU32_eq_toNat _ (by omega) hper, Int.toNat_add hg hcnt, Int.toNat_natCast]
  refine ⟨?_, ?_, ?_⟩
  · simp only [tile_source_rect, hgh, hg32, Nat.add_mod_right]
  · intro hcol hfit
    have hcnt2 : 2 ≤ atlas.h_count := by omega
    have hg1 : toU32 (g + 1) = g.toNat + 1 := by
      have hlt1 : g + 1 < (u32_size : ℤ) := by
        have h2 : (2 : ℤ) ≤ (atlas.h_count : ℤ) := by exact_mod_cast hcnt2
        omega
      rw [toU32_eq_toNat _ (by omega) hlt1, Int.toNat_add hg (by norm_num)]
      norm_num
    have hcol1 : toU32 (g + 1) % atlas.h_count = toU32 g % atlas.h_count + 1 := by
      rw [hg1, ← hg32]
      exact succ_mod_of_lt _ _ hcol
    simp only [tile_source_rect, hcol1]
    rw [Nat.mod_eq_of_lt hfit,
      Nat.mod_eq_of_lt (lt_of_le_of_lt (Nat.mul_le_mul_right _ (Nat.le_succ _)) hfit)]
    push_cast
    ring
  · rw [atlas240_eval]
    decide

/-- Witness for C5: periodicity at glyph 9 (a last-column glyph, where only
the nonnegativity and range hypotheses apply) and the per-unit increment at
glyph 3, both on the 10x10/24px atlas. -/
theorem C5_x_periodicity_witness :
    ((tile_source_rect (9 + (atlas240.h_count : ℤ)) atlas240).x =
      (tile_source_rect 9 atlas240).x)
    ∧ ((tile_source_rect (3 + 1) atlas240).x =
        (tile_source_rect 3 atlas240).x + (atlas240.tile_dim : ℚ)) := by
  have h9 := C5_x_periodicity atlas240 9 (by decide) (by rw [atlas240_eval]; decide)
  have h3 := C5_x_periodicity atlas240 3 (by decide) (by rw [atlas240_eval]; decide)
  exact ⟨h9.1, h3.2.1 (by rw [atlas240_eval]; decide) (by rw [atlas240_eval]; decide)⟩

/-- C4 counterexample: in the hardcoded scene the glyph code does not
increase per cell across the whole 50x50 traversal: on the 10x10 atlas the
cell after (49,0), namely (0,1), has glyph 10, not (49 + 1) mod 128 = 50. -/
theorem C4_counterexample :
    cell_glyph atlas240 0 1 ≠ (cell_glyph atlas240 49 0 + 1) % 128 := by
  rw [atlas240_eval]
  decide

/-- C4 (amended): each frame draws 2502 quads: the tinted scaled background,
the scaled atlas preview, then the 50x50 glyph grid whose cell (x, y) (row
y, column x, row-major) uses glyph code (x + y*tiles_per_row) mod 128 — a
code that increases by one per cell along a row, wrapping modulo 128, but
restarts from y*tiles_per_row at each row boundary. -/
theorem C4_frame_scene (ws : Window_State) (claesz : Texture) (atlas : Ascii_Atlas) :
    (frame_scene ws claesz atlas).length = 2502
    ∧ (frame_scene ws claesz atlas)[0]? =
        some (draw_texture_scaled_tinted (bg_pos ws claesz) claesz bg_scale bg_tint)
    ∧ (frame_scene ws claesz atlas)[1]? = some (draw_texture_scaled (100, 100) atlas.tex 1)
    ∧ (∀ x y : ℕ, x < 50 → y < 50 →
        (frame_scene ws claesz atlas)[2 + (y * 50 + x)]? = some (grid_cell_call atlas x y))
    ∧ (∀ x y : ℕ, x + 1 < 50 →
        cell_glyph atlas (x + 1) y = (cell_glyph atlas x y + 1) % 128) := by
  refine ⟨?_, rfl, rfl, ?_, ?_⟩
  · simp only [frame_scene, List.length_cons, grid_calls_def, List.length_flatMap,
      Function.comp_def, List.length_map, List.length_range]
    decide
  · intro x y hx hy
    have hidx : 2 + (y * 50 + x) = (y * 50 + x) + 1 + 1 := by omega
    rw [hidx]
    simp only [frame_scene, List.getElem?_cons_succ]
    exact grid_calls_getElem atlas x y hx hy
  · intro x y hx
    unfold cell_glyph
    have h1 : x + 1 + y * atlas.h_count = x + y * atlas.h_count + 1 := by ring
    rw [h1, Nat.add_mod (x + y * atlas.h_count) 1 128]

/-- Witness for C4: on the 10x10/24px atlas, cell (0,0) of the grid is drawn
at scene position 2 with glyph code 0, and along row 0 the glyph code of the
next cell is one more modulo 128. -/
theorem C4_frame_scene_witness :
    (frame_scene { w := 800, h := 600 } { w := 384, h := 345 } atlas240)[2 + (0 * 50 + 0)]? =
        some (grid_cell_call atlas240 0 0)
    ∧ cell_glyph atlas240 1 0 = (cell_glyph atlas240 0 0 + 1) % 128 := by
  have h := C4_frame_scene { w := 800, h := 600 } { w := 384, h := 345 } atlas240
  exact ⟨h.2.2.2.1 0 0 (by decide) (by decide), h.2.2.2.2 0 0 (by decide)⟩
